import Mathlib

/-!
Shallow embedding of the economic-indicator analysis engine
(`src/analyzer.py`, class `EconomicAnalyzer`) of the us-econ-bot-cloudrun
repository, together with theorems checking the natural-language
specification against it.

Conventions of the embedding:
* Python floats are modelled as rationals (`ℚ`); every numeric constant of
  the source is a decimal literal reproduced exactly.
* A collector snapshot (`data` in `analyze_indicators`) is an ordered
  association list from indicator id to an entry; Python dict iteration
  order is insertion order, which the list order models.
* The per-indicator `change` sub-dict is modelled as an association list
  from field name to number, so that Python truthiness of the dict
  (non-empty test) and `change.get('percent', 0)` are both expressible.
* The three status strings 'normal' / 'warning' / 'critical' of the source
  are modelled by the inductive `Status` (the source only ever compares
  them for equality against these three literals).
* A second, dynamically-typed model (definitions prefixed `d_`, values of
  type `PyVal`, results in `Except PyErr`) embeds the same functions over
  Python's dynamic value space, including `None` and string-valued fields
  and the run-time errors (`TypeError`, `KeyError`, `AttributeError`) that
  Python raises on them; it is used for the error-handling claims.
-/

namespace EconBot

/-- Python substring test `pat in s`, on the underlying character lists:
`list_starts_with s pat` is true when `pat` is a prefix of `s`. -/
def list_starts_with : List Char → List Char → Bool
  | _, [] => true
  | [], _ :: _ => false
  | a :: as, b :: bs => a == b && list_starts_with as bs

/-- Python substring test `pat in s`: `pat` occurs contiguously in `s`. -/
def list_contains_sub : List Char → List Char → Bool
  | [], pat => pat.isEmpty
  | a :: as, pat => list_starts_with (a :: as) pat || list_contains_sub as pat

/-- Python's `pat in s` on strings. -/
def str_contains (s pat : String) : Bool :=
  list_contains_sub s.toList pat.toList

/-- The per-indicator `change` dict of a collector entry
(fields `absolute`, `percent`, `prev_value`), as an association list. -/
abbrev ChangeDict := List (String × ℚ)

/-- One indicator entry of the collector snapshot (`fred_collector.py`,
`get_latest_values`): display name, latest numeric value, observation date,
and optional change sub-dict.  `value = none` models a dict without the
`'value'` key; `change = none` models a dict without a usable `'change'`
dict (the dynamically-typed model additionally distinguishes
`'change': None`). -/
structure Entry where
  name : String
  value : Option ℚ := none
  date : Option String := none
  change : Option ChangeDict := none
deriving DecidableEq

/-- The snapshot passed to `analyze_indicators`: indicator id → entry,
in iteration order. -/
abbrev Snapshot := List (String × Entry)

/-- `self.thresholds` of `EconomicAnalyzer.__init__`. -/
structure Thresholds where
  critical : ℚ
  warning : ℚ
  normal : ℚ
deriving DecidableEq

/-- The threshold table `self.thresholds` (analyzer.py lines 21-67). -/
def thresholds (id : String) : Option Thresholds :=
  if id = "UNRATE" then some ⟨5.0, 4.5, 3.5⟩
  else if id = "CPIAUCSL" then some ⟨4.0, 3.0, 2.0⟩
  else if id = "PPIACO" then some ⟨5.0, 3.5, 2.0⟩
  else if id = "DFF" then some ⟨5.0, 4.0, 2.0⟩
  else if id = "T10Y2Y" then some ⟨-0.5, 0, 1.0⟩
  else if id = "SAHMREALTIME" then some ⟨0.5, 0.3, 0.1⟩
  else if id = "ICSA" then some ⟨300000, 250000, 200000⟩
  else if id = "MANEMP" then some ⟨45, 48, 50⟩
  else if id = "NMFBAI" then some ⟨45, 48, 50⟩
  else none

/-- The direction test of `_analyze_single_indicator`:
`indicator_id in ['T10Y2Y']` ("lower is riskier"). -/
def lower_is_worse (id : String) : Bool :=
  ["T10Y2Y"].contains id

/-- The `result['status']` strings of `_analyze_single_indicator`. -/
inductive Status where
  | normal
  | warning
  | critical
deriving DecidableEq

/-- The threshold check of `_analyze_single_indicator` (lines 140-154):
status as a function of indicator id and current value. -/
def threshold_status (id : String) (value : ℚ) : Status :=
  match thresholds id with
  | none => Status.normal
  | some t =>
    if lower_is_worse id then
      if value ≤ t.critical then Status.critical
      else if value ≤ t.warning then Status.warning
      else Status.normal
    else
      if value ≥ t.critical then Status.critical
      else if value ≥ t.warning then Status.warning
      else Status.normal

/-- Python truthiness of the optional `change` dict:
`data.get('change', {})` is truthy iff the dict is present and non-empty. -/
def dict_truthy (change : Option ChangeDict) : Bool :=
  !(change.getD []).isEmpty

/-- `change.get('percent', 0)` on the (defaulted) change dict. -/
def change_percent (change : Option ChangeDict) : ℚ :=
  ((change.getD []).lookup "percent").getD 0

/-- `change.get('percent', 0) if change else 0`, the guarded percent read
used by the interpretation helpers. -/
def cond_percent (change : Option ChangeDict) : ℚ :=
  if dict_truthy change then change_percent change else 0

/-- The trend block of `_analyze_single_indicator` (lines 156-164). -/
def trend_of (change : Option ChangeDict) : String :=
  if dict_truthy change then
    let pct := change_percent change
    if |pct| < 0.5 then "→ 보합"
    else if pct > 0 then "↗️ 상승"
    else "↘️ 하락"
  else ""

/-- `_interpret_unemployment`. -/
def interpret_unemployment (value : ℚ) : String :=
  if value < 3.5 then "완전고용 수준 - 임금상승 압력"
  else if value < 4.0 then "건전한 고용시장"
  else if value < 5.0 then "고용시장 둔화 신호"
  else "고용시장 악화 - 경기침체 우려"

/-- `_interpret_inflation` (CPI year-over-year estimate: monthly × 12). -/
def interpret_inflation (_value : ℚ) (change : Option ChangeDict) : String :=
  let annual_estimate := cond_percent change * 12
  if annual_estimate > 3 then "인플레이션 압력 상승"
  else if annual_estimate > 2 then "목표 수준 근접"
  else if annual_estimate > 1 then "안정적인 물가 상승"
  else "디플레이션 우려"

/-- `_interpret_fed_rate`. -/
def interpret_fed_rate (value : ℚ) : String :=
  if value ≥ 5 then "긴축적 통화정책"
  else if value ≥ 3 then "중립적 통화정책"
  else if value ≥ 1 then "완화적 통화정책"
  else "초완화적 통화정책"

/-- `_interpret_gdp` (quarterly change annualised: × 4). -/
def interpret_gdp (_value : ℚ) (change : Option ChangeDict) : String :=
  let growth_estimate := if dict_truthy change then change_percent change * 4 else 0
  if growth_estimate > 3 then "강한 경제성장"
  else if growth_estimate > 2 then "건전한 성장세"
  else if growth_estimate > 0 then "성장 둔화"
  else "경기 위축"

/-- `_interpret_yield_curve`. -/
def interpret_yield_curve (value : ℚ) : String :=
  if value < -0.5 then "심각한 역전 - 경기침체 임박"
  else if value < 0 then "수익률 역전 - 경기침체 경고"
  else if value < 0.5 then "평탄화 - 경기둔화 신호"
  else "정상 수익률 곡선"

/-- `_interpret_sahm_rule`. -/
def interpret_sahm_rule (value : ℚ) : String :=
  if value ≥ 0.5 then "경기침체 진입 (Sahm Rule 발동)"
  else if value ≥ 0.3 then "경기침체 경고 수준"
  else if value ≥ 0.2 then "고용시장 약화 신호"
  else "정상 수준"

/-- `_interpret_jobless_claims`. -/
def interpret_jobless_claims (value : ℚ) : String :=
  if value > 300000 then "실업 급증 - 고용시장 악화"
  else if value > 250000 then "실업 증가 추세"
  else if value > 200000 then "정상 범위"
  else "낮은 실업 청구 - 강한 고용"

/-- `_interpret_retail_sales`. -/
def interpret_retail_sales (change : Option ChangeDict) : String :=
  let pct := cond_percent change
  if pct > 1 then "강한 소비 증가"
  else if pct > 0 then "소비 증가세"
  else if pct > -1 then "소비 둔화"
  else "소비 위축"

/-- `_interpret_housing_starts`. -/
def interpret_housing_starts (value : ℚ) : String :=
  if value > 1500 then "주택시장 호황"
  else if value > 1300 then "활발한 주택건설"
  else if value > 1100 then "정상적인 건설활동"
  else "주택시장 둔화"

/-- `_interpret_consumer_sentiment`. -/
def interpret_consumer_sentiment (value : ℚ) : String :=
  if value > 100 then "낙관적 소비심리"
  else if value > 90 then "긍정적 소비심리"
  else if value > 80 then "중립적 소비심리"
  else "비관적 소비심리"

/-- `_interpret_ism_manufacturing` (ISM manufacturing, 50 midpoint). -/
def interpret_ism_manufacturing (value : ℚ) : String :=
  if value ≥ 60 then "제조업 강한 확장"
  else if value ≥ 55 then "제조업 확장"
  else if value ≥ 50 then "제조업 완만한 확장"
  else if value ≥ 48 then "제조업 위축 시작"
  else if value ≥ 45 then "제조업 위축"
  else "제조업 심각한 위축"

/-- `_interpret_ism_services` (ISM services, 50 midpoint). -/
def interpret_ism_services (value : ℚ) : String :=
  if value ≥ 60 then "서비스업 강한 확장"
  else if value ≥ 55 then "서비스업 확장"
  else if value ≥ 50 then "서비스업 완만한 확장"
  else if value ≥ 48 then "서비스업 위축 시작"
  else if value ≥ 45 then "서비스업 위축"
  else "서비스업 심각한 위축"

/-- `_interpret_ppi` (producer prices, monthly × 12). -/
def interpret_ppi (_value : ℚ) (change : Option ChangeDict) : String :=
  let annual_estimate := cond_percent change * 12
  if annual_estimate > 4 then "생산자물가 급등 - 비용 압력 심화"
  else if annual_estimate > 3 then "생산자물가 상승 압력"
  else if annual_estimate > 2 then "생산자물가 온건한 상승"
  else "생산자물가 안정적"

/-- `_interpret_import_prices`. -/
def interpret_import_prices (change : Option ChangeDict) : String :=
  let pct := cond_percent change
  if pct > 2 then "수입물가 급등 - 인플레이션 압력"
  else if pct > 1 then "수입물가 상승"
  else if pct > -1 then "수입물가 안정"
  else "수입물가 하락 - 디플레이션 압력"

/-- `_interpret_export_prices`. -/
def interpret_export_prices (change : Option ChangeDict) : String :=
  let pct := cond_percent change
  if pct > 2 then "수출물가 강세 - 경쟁력 약화 우려"
  else if pct > 0 then "수출물가 상승"
  else if pct > -2 then "수출물가 안정"
  else "수출물가 약세 - 경쟁력 개선"

/-- `_interpret_indicator`: the string-keyed dispatch over the fifteen
interpretation helpers, with the neutral fallback for unknown ids.  (In the
source the dict literal evaluates all fifteen helpers eagerly; over typed
numeric inputs the result only depends on the selected entry, so the typed
model reads it as a dispatch.  The eager evaluation order is preserved in
the dynamically-typed model `d_interpret_indicator` below.) -/
def interpret_indicator (id : String) (value : ℚ) (change : Option ChangeDict) : String :=
  if id = "UNRATE" then interpret_unemployment value
  else if id = "CPIAUCSL" then interpret_inflation value change
  else if id = "PPIACO" then interpret_ppi value change
  else if id = "DFF" then interpret_fed_rate value
  else if id = "GDPC1" then interpret_gdp value change
  else if id = "T10Y2Y" then interpret_yield_curve value
  else if id = "SAHMREALTIME" then interpret_sahm_rule value
  else if id = "ICSA" then interpret_jobless_claims value
  else if id = "RSXFS" then interpret_retail_sales change
  else if id = "HOUST" then interpret_housing_starts value
  else if id = "UMCSENT" then interpret_consumer_sentiment value
  else if id = "MANEMP" then interpret_ism_manufacturing value
  else if id = "NMFBAI" then interpret_ism_services value
  else if id = "IR" then interpret_import_prices change
  else if id = "IQ" then interpret_export_prices change
  else "데이터 분석 중"

/-- The per-indicator result dict of `_analyze_single_indicator`. -/
structure IndicatorResult where
  current : ℚ
  change : Option ChangeDict
  status : Status
  trend : String
  interpretation : String
deriving DecidableEq

/-- `_analyze_single_indicator` (lines 126-169). -/
def analyze_single_indicator (id : String) (data : Entry) : IndicatorResult :=
  let value := data.value.getD 0
  { current := value
    change := data.change
    status := threshold_status id value
    trend := trend_of data.change
    interpretation := interpret_indicator id value data.change }

/-- One element of `analysis['alerts']` (lines 100-106). -/
structure Alert where
  indicator : String
  status : Status
  value : ℚ
  message : String
deriving DecidableEq

/-- Step 1 of `analyze_indicators` (lines 93-106): per-indicator results in
snapshot order, plus the alerts collected for warning/critical results. -/
def collect_indicators : Snapshot → List (String × IndicatorResult) × List Alert
  | [] => ([], [])
  | (id, e) :: rest =>
    let tail := collect_indicators rest
    if e.value.isSome then
      let r := analyze_single_indicator id e
      ((id, r) :: tail.1,
        (if r.status = Status.warning ∨ r.status = Status.critical then
          [{ indicator := e.name
             status := r.status
             value := e.value.getD 0
             message := r.interpretation }]
        else []) ++ tail.2)
    else tail

/-- `_estimate_gdp_growth` (lines 506-513): quarterly percent × 4,
zero when the entry or its change dict is missing. -/
def estimate_gdp_growth (gdp_data : Option Entry) : ℚ :=
  match gdp_data with
  | none => 0
  | some g =>
    match g.change with
    | none => 0
    | some c => (c.lookup "percent").getD 0 * 4

/-- `_estimate_inflation` (lines 515-522): monthly percent × 12,
zero when the entry or its change dict is missing. -/
def estimate_inflation (cpi_data : Option Entry) : ℚ :=
  match cpi_data with
  | none => 0
  | some c =>
    match c.change with
    | none => 0
    | some d => (d.lookup "percent").getD 0 * 12

/-- `raw_data.get(id, {}).get('value', dflt)`. -/
def get_value (raw_data : Snapshot) (id : String) (dflt : ℚ) : ℚ :=
  (((raw_data.lookup id).bind Entry.value).getD dflt)

/-- `_determine_market_phase` (lines 171-198). -/
def determine_market_phase (raw_data : Snapshot) : String :=
  let gdp_growth := estimate_gdp_growth (raw_data.lookup "GDPC1")
  let unemployment := get_value raw_data "UNRATE" 0
  let _inflation := estimate_inflation (raw_data.lookup "CPIAUCSL")
  let _retail_sales := change_percent ((raw_data.lookup "RSXFS").bind Entry.change)
  let sahm_value := get_value raw_data "SAHMREALTIME" 0
  let yield_spread := get_value raw_data "T10Y2Y" 0
  if sahm_value ≥ 0.5 then "🔴 경기침체 (Recession)"
  else if yield_spread < 0 ∧ unemployment > 4 then "🟠 경기둔화 (Slowdown)"
  else if gdp_growth > 3 ∧ unemployment < 3.5 then "🟡 과열 (Overheating)"
  else if gdp_growth > 2 ∧ unemployment < 4 then "🟢 확장 (Expansion)"
  else if gdp_growth > 0 ∧ gdp_growth ≤ 2 then "🔵 완만한 성장 (Moderate Growth)"
  else "⚪ 전환기 (Transition)"

/-- The additive risk score of `_calculate_risk_level` (lines 203-236). -/
def risk_score (raw_data : Snapshot) : ℕ :=
  let yield_spread := get_value raw_data "T10Y2Y" 1
  let sahm := get_value raw_data "SAHMREALTIME" 0
  let unemployment := get_value raw_data "UNRATE" 0
  let inflation := estimate_inflation (raw_data.lookup "CPIAUCSL")
  (if yield_spread < -0.5 then 3 else if yield_spread < 0 then 2
   else if yield_spread < 0.5 then 1 else 0)
  + (if sahm ≥ 0.5 then 3 else if sahm ≥ 0.3 then 2 else if sahm ≥ 0.2 then 1 else 0)
  + (if unemployment > 5 then 2 else if unemployment > 4 then 1 else 0)
  + (if inflation > 4 ∨ inflation < 1 then 2
     else if inflation > 3 ∨ inflation < 1.5 then 1 else 0)

/-- `_calculate_risk_level` (lines 200-250): risk percentage out of
`max_score = 10`, then the tier string. -/
def calculate_risk_level (raw_data : Snapshot) : String :=
  let risk_pct : ℚ := (risk_score raw_data : ℚ) / 10 * 100
  if risk_pct ≥ 70 then "🔴 매우 높음 (Very High)"
  else if risk_pct ≥ 50 then "🟠 높음 (High)"
  else if risk_pct ≥ 30 then "🟡 중간 (Medium)"
  else if risk_pct ≥ 15 then "🟢 낮음 (Low)"
  else "🔵 매우 낮음 (Very Low)"

/-- The per-alert advisory block of `_generate_recommendations`
(lines 288-296): only the first two alerts are inspected, and only
critical ones contribute, by substring match on the display name. -/
def alert_advisories (alerts : List Alert) : List String :=
  (alerts.take 2).flatMap fun alert =>
    if alert.status = Status.critical then
      if str_contains alert.indicator "Sahm" then ["경기침체 대비 포지션 조정"]
      else if str_contains alert.indicator "수익률" then ["수익률 역전 - 방어적 포지션"]
      else if str_contains alert.indicator "ISM" then ["제조업/서비스업 위축 - 경기순환주 회피"]
      else []
    else []

/-- The ISM catch-all block of `_generate_recommendations`
(lines 298-300): one fixed string when any alert's display name
mentions ISM. -/
def ism_catch_all (alerts : List Alert) : List String :=
  if alerts.any (fun a => str_contains a.indicator "ISM") then
    ["ISM 50 미만 - 경기둔화 대비"]
  else []

/-- `_generate_recommendations` (lines 252-302). -/
def generate_recommendations (market_phase risk_level : String)
    (alerts : List Alert) : List String :=
  let phase_recs :=
    if str_contains market_phase "침체" then
      ["현금 비중 확대 권고", "방어주 (유틸리티, 필수소비재) 관심", "장기 국채 비중 증가 고려"]
    else if str_contains market_phase "둔화" then
      ["포트폴리오 리밸런싱 시점", "배당주 비중 증가 검토", "성장주 비중 축소 고려"]
    else if str_contains market_phase "과열" then
      ["차익실현 시점 검토", "리스크 관리 강화 필요", "단기 유동성 확보"]
    else if str_contains market_phase "확장" then
      ["주식 비중 유지/확대", "경기민감주 관심", "성장주 투자 기회"]
    else []
  let risk_recs :=
    if str_contains risk_level "매우 높음" || str_contains risk_level "높음" then
      ["레버리지 투자 금지", "헤지 포지션 구축"]
    else []
  (phase_recs ++ risk_recs ++ alert_advisories alerts ++ ism_catch_all alerts).take 5

/-- The hard-coded id set of `_create_summary`
(`['UNRATE', 'CPIAUCSL', 'ICSA']`, "indicators where lower is better"). -/
def lower_is_better_ids : List String :=
  ["UNRATE", "CPIAUCSL", "ICSA"]

/-- The improving/deteriorating loop of `_create_summary`
(lines 535-549), returning (improving, deteriorating) name lists in
snapshot order. -/
def movement_lists : Snapshot → List String × List String
  | [] => ([], [])
  | (id, e) :: rest =>
    let tail := movement_lists rest
    if dict_truthy e.change then
      let pct_change := change_percent e.change
      if lower_is_better_ids.contains id then
        if pct_change < -1 then (e.name :: tail.1, tail.2)
        else if pct_change > 1 then (tail.1, e.name :: tail.2)
        else tail
      else
        if pct_change > 1 then (e.name :: tail.1, tail.2)
        else if pct_change < -1 then (tail.1, e.name :: tail.2)
        else tail
    else tail

/-- `analysis['summary']` (lines 524-551). -/
structure Summary where
  total_indicators : ℕ
  updated_indicators : ℕ
  critical_indicators : List String
  improving_indicators : List String
  deteriorating_indicators : List String
deriving DecidableEq

/-- `_create_summary` (lines 524-551).  The source initialises
`critical_indicators` to `[]` and never appends to it. -/
def create_summary (data : Snapshot) : Summary :=
  { total_indicators := data.length
    updated_indicators := data.countP (fun p => p.2.value.isSome)
    critical_indicators := []
    improving_indicators := (movement_lists data).1
    deteriorating_indicators := (movement_lists data).2 }

/-- The full analysis dict of `analyze_indicators` (lines 83-91). -/
structure AnalysisResult where
  timestamp : String
  indicators : List (String × IndicatorResult)
  alerts : List Alert
  market_phase : String
  risk_level : String
  recommendations : List String
  summary : Summary
deriving DecidableEq

/-- `analyze_indicators` (lines 80-124).  `now` stands for
`datetime.now().isoformat()`, the only clock input. -/
def analyze_indicators (now : String) (data : Snapshot) : AnalysisResult :=
  let step1 := collect_indicators data
  let phase := determine_market_phase data
  let risk := calculate_risk_level data
  { timestamp := now
    indicators := step1.1
    alerts := step1.2
    market_phase := phase
    risk_level := risk
    recommendations := generate_recommendations phase risk step1.2
    summary := create_summary data }

/-! ### Specification-side definitions

The following definitions transcribe the specification's wording (spec.md
sections 4.1-4.5), to be compared with the source-derived definitions
above. -/

/-- Spec 4.2: the market-phase ordered decision list, as a function of the
four quantities it reads (Sahm value, yield-curve spread, annualised GDP
growth, unemployment rate). -/
def phase_rules_spec (sahm yield_spread gdp_growth unemployment : ℚ) : String :=
  if sahm ≥ 0.5 then "🔴 경기침체 (Recession)"
  else if yield_spread < 0 ∧ unemployment > 4 then "🟠 경기둔화 (Slowdown)"
  else if gdp_growth > 3 ∧ unemployment < 3.5 then "🟡 과열 (Overheating)"
  else if gdp_growth > 2 ∧ unemployment < 4 then "🟢 확장 (Expansion)"
  else if gdp_growth > 0 ∧ gdp_growth ≤ 2 then "🔵 완만한 성장 (Moderate Growth)"
  else "⚪ 전환기 (Transition)"

/-- Spec 4.3: the additive risk point model as a function of the four
quantities it reads. -/
def risk_points_spec (yield_spread sahm unemployment inflation : ℚ) : ℕ :=
  (if yield_spread < -0.5 then 3 else if yield_spread < 0 then 2
   else if yield_spread < 0.5 then 1 else 0)
  + (if sahm ≥ 0.5 then 3 else if sahm ≥ 0.3 then 2 else if sahm ≥ 0.2 then 1 else 0)
  + (if unemployment > 5 then 2 else if unemployment > 4 then 1 else 0)
  + (if inflation > 4 ∨ inflation < 1 then 2
     else if inflation > 3 ∨ inflation < 1.5 then 1 else 0)

/-- Spec 4.3: risk percentage = score/10 × 100, and the tier thresholds
≥70 VeryHigh / ≥50 High / ≥30 Medium / ≥15 Low / else VeryLow. -/
def risk_tier_spec (score : ℕ) : String :=
  let risk_pct : ℚ := (score : ℚ) / 10 * 100
  if risk_pct ≥ 70 then "🔴 매우 높음 (Very High)"
  else if risk_pct ≥ 50 then "🟠 높음 (High)"
  else if risk_pct ≥ 30 then "🟡 중간 (Medium)"
  else if risk_pct ≥ 15 then "🟢 낮음 (Low)"
  else "🔵 매우 낮음 (Very Low)"

/-- Spec 4.1 tier rule: Critical/Warning by direction (≤ thresholds when
the direction is lower-is-worse, ≥ thresholds when higher-is-worse), and
Normal for every indicator absent from the threshold table. -/
def classify_tier_spec (id : String) (value : ℚ) : Status :=
  match thresholds id with
  | none => Status.normal
  | some t =>
    if lower_is_worse id then
      if value ≤ t.critical then Status.critical
      else if value ≤ t.warning then Status.warning
      else Status.normal
    else
      if value ≥ t.critical then Status.critical
      else if value ≥ t.warning then Status.warning
      else Status.normal

/-- The enumerated market phases of the spec (glossary). -/
inductive MarketPhase where
  | recession
  | slowdown
  | overheating
  | expansion
  | moderate_growth
  | transition
deriving DecidableEq

/-- The phase string produced by `_determine_market_phase` for each
enumerated phase. -/
def market_phase_string : MarketPhase → String
  | MarketPhase.recession => "🔴 경기침체 (Recession)"
  | MarketPhase.slowdown => "🟠 경기둔화 (Slowdown)"
  | MarketPhase.overheating => "🟡 과열 (Overheating)"
  | MarketPhase.expansion => "🟢 확장 (Expansion)"
  | MarketPhase.moderate_growth => "🔵 완만한 성장 (Moderate Growth)"
  | MarketPhase.transition => "⚪ 전환기 (Transition)"

/-- The enumerated risk tiers of the spec (glossary). -/
inductive RiskTier where
  | very_low
  | low
  | medium
  | high
  | very_high
deriving DecidableEq

/-- The tier string produced by `_calculate_risk_level` for each
enumerated tier. -/
def risk_tier_string : RiskTier → String
  | RiskTier.very_low => "🔵 매우 낮음 (Very Low)"
  | RiskTier.low => "🟢 낮음 (Low)"
  | RiskTier.medium => "🟡 중간 (Medium)"
  | RiskTier.high => "🟠 높음 (High)"
  | RiskTier.very_high => "🔴 매우 높음 (Very High)"

/-- Spec 4.4, over the enumerated phases and tiers: the list built by the
recommendation rules before the final truncation to 5 — phase triplet
(Recession/Slowdown/Overheating/Expansion only), then the two cautionary
strings for High/VeryHigh risk, then the per-critical-alert advisories for
the first two alerts, then the ISM catch-all. -/
def recommend_build_spec (p : MarketPhase) (r : RiskTier)
    (alerts : List Alert) : List String :=
  (match p with
   | MarketPhase.recession =>
     ["현금 비중 확대 권고", "방어주 (유틸리티, 필수소비재) 관심", "장기 국채 비중 증가 고려"]
   | MarketPhase.slowdown =>
     ["포트폴리오 리밸런싱 시점", "배당주 비중 증가 검토", "성장주 비중 축소 고려"]
   | MarketPhase.overheating =>
     ["차익실현 시점 검토", "리스크 관리 강화 필요", "단기 유동성 확보"]
   | MarketPhase.expansion =>
     ["주식 비중 유지/확대", "경기민감주 관심", "성장주 투자 기회"]
   | _ => [])
  ++ (if r = RiskTier.high ∨ r = RiskTier.very_high then
        ["레버리지 투자 금지", "헤지 포지션 구축"]
      else [])
  ++ alert_advisories alerts
  ++ ism_catch_all alerts

/-- The amended summary rule: a name joins the improving list exactly when
its change dict is truthy and its percent movement clears the hard-coded
per-id direction (the `['UNRATE', 'CPIAUCSL', 'ICSA']` set moves
improvingly downward, every other id improvingly upward). -/
def improving_spec (data : Snapshot) : List String :=
  data.flatMap fun p =>
    if dict_truthy p.2.change ∧
        (if lower_is_better_ids.contains p.1 then change_percent p.2.change < -1
         else change_percent p.2.change > 1) then
      [p.2.name]
    else []

/-- The amended summary rule for the deteriorating list (mirror image of
`improving_spec`). -/
def deteriorating_spec (data : Snapshot) : List String :=
  data.flatMap fun p =>
    if dict_truthy p.2.change ∧
        (if lower_is_better_ids.contains p.1 then change_percent p.2.change > 1
         else change_percent p.2.change < -1) then
      [p.2.name]
    else []

/-- Rank of a severity tier along Normal → Warning → Critical, for the
monotonicity property. -/
def status_rank : Status → ℕ
  | Status.normal => 0
  | Status.warning => 1
  | Status.critical => 2

/-! ### Dynamically-typed model

The same analyzer functions over Python's dynamic value space.  Field
values may be numbers, strings, `None` or dicts; the operations reproduce
Python's run-time behaviour on each shape, including the exceptions
(`TypeError` from comparing or taking `abs` of a non-number, `KeyError`
from `d['k']` on a missing key, `AttributeError` from `.get` on a
non-dict such as `None`).  This model settles the error-handling claims:
the source has no `try`/`except` anywhere in `analyze_indicators` or its
helpers, so any such exception escapes `analyze_indicators`. -/

/-- A dynamic Python value: number, string, `None`, or string-keyed dict. -/
inductive PyVal where
  | num (q : ℚ)
  | str (s : String)
  | pynone
  | dict (d : List (String × PyVal))

/-- A Python dict with string keys. -/
abbrev PyDict := List (String × PyVal)

/-- The snapshot of the dynamic model: indicator id → entry dict. -/
abbrev DSnapshot := List (String × PyDict)

/-- The Python exceptions the analyzer can raise on malformed input. -/
inductive PyErr where
  | typeErr
  | keyErr
  | attrErr
deriving DecidableEq

/-- `d.get(k, dflt)` on a dict. -/
def py_get (d : PyDict) (k : String) (dflt : PyVal) : PyVal :=
  (d.lookup k).getD dflt

/-- `d[k]` on a dict: `KeyError` when the key is absent. -/
def py_index (d : PyDict) (k : String) : Except PyErr PyVal :=
  match d.lookup k with
  | some v => Except.ok v
  | none => Except.error PyErr.keyErr

/-- `v.get(k, dflt)`: only dicts have `.get`; on a number, string or
`None` Python raises `AttributeError`. -/
def py_method_get (v : PyVal) (k : String) (dflt : PyVal) : Except PyErr PyVal :=
  match v with
  | PyVal.dict d => Except.ok (py_get d k dflt)
  | _ => Except.error PyErr.attrErr

/-- Python truthiness of a value (`0`, `''`, `None` and `{}` are falsy). -/
def py_truthy : PyVal → Bool
  | PyVal.num q => decide (q ≠ 0)
  | PyVal.str s => !s.isEmpty
  | PyVal.pynone => false
  | PyVal.dict d => !d.isEmpty

/-- `v < q` against a numeric literal: `TypeError` unless `v` is a number. -/
def py_lt (v : PyVal) (q : ℚ) : Except PyErr Bool :=
  match v with
  | PyVal.num a => Except.ok (decide (a < q))
  | _ => Except.error PyErr.typeErr

/-- `v <= q` against a numeric literal. -/
def py_le (v : PyVal) (q : ℚ) : Except PyErr Bool :=
  match v with
  | PyVal.num a => Except.ok (decide (a ≤ q))
  | _ => Except.error PyErr.typeErr

/-- `v > q` against a numeric literal. -/
def py_gt (v : PyVal) (q : ℚ) : Except PyErr Bool :=
  match v with
  | PyVal.num a => Except.ok (decide (a > q))
  | _ => Except.error PyErr.typeErr

/-- `v >= q` against a numeric literal. -/
def py_ge (v : PyVal) (q : ℚ) : Except PyErr Bool :=
  match v with
  | PyVal.num a => Except.ok (decide (a ≥ q))
  | _ => Except.error PyErr.typeErr

/-- `abs(v)`: `TypeError` unless `v` is a number. -/
def py_abs (v : PyVal) : Except PyErr PyVal :=
  match v with
  | PyVal.num a => Except.ok (PyVal.num |a|)
  | _ => Except.error PyErr.typeErr

/-- String repetition, for Python's `s * n`. -/
def str_repeat (s : String) : ℕ → String
  | 0 => ""
  | n + 1 => s ++ str_repeat s n

/-- `v * n` with an integer literal: numbers multiply, strings repeat
(Python sequence repetition), everything else raises `TypeError`. -/
def py_mul_nat (v : PyVal) (n : ℕ) : Except PyErr PyVal :=
  match v with
  | PyVal.num a => Except.ok (PyVal.num (a * n))
  | PyVal.str s => Except.ok (PyVal.str (str_repeat s n))
  | _ => Except.error PyErr.typeErr

/-- Python's `pat in v`: substring test on strings, key test on dicts,
`TypeError` on numbers and `None`. -/
def py_in (pat : String) (v : PyVal) : Except PyErr Bool :=
  match v with
  | PyVal.str s => Except.ok (str_contains s pat)
  | PyVal.dict d => Except.ok ((d.map Prod.fst).contains pat)
  | _ => Except.error PyErr.typeErr

/-- Short-circuit `and` over fallible conditions. -/
def py_and (a b : Except PyErr Bool) : Except PyErr Bool := do
  if (← a) then b else pure false

/-- Short-circuit `or` over fallible conditions. -/
def py_or (a b : Except PyErr Bool) : Except PyErr Bool := do
  if (← a) then pure true else b

/-- A Python `if`/`elif` chain: conditions are evaluated in order (so a
later exception is not reached once an earlier condition holds). -/
def py_if_chain : List (Except PyErr Bool × String) → String → Except PyErr String
  | [], dflt => Except.ok dflt
  | (c, s) :: rest, dflt => do
    if (← c) then pure s else py_if_chain rest dflt

/-- `change.get('percent', 0) if change else 0` over dynamic values. -/
def d_cond_percent (change : PyVal) : Except PyErr PyVal :=
  if py_truthy change then py_method_get change "percent" (PyVal.num 0)
  else Except.ok (PyVal.num 0)

/-- `_interpret_unemployment` over dynamic values. -/
def d_interpret_unemployment (value : PyVal) : Except PyErr String :=
  py_if_chain
    [(py_lt value 3.5, "완전고용 수준 - 임금상승 압력"),
     (py_lt value 4.0, "건전한 고용시장"),
     (py_lt value 5.0, "고용시장 둔화 신호")]
    "고용시장 악화 - 경기침체 우려"

/-- `_interpret_inflation` over dynamic values. -/
def d_interpret_inflation (_value change : PyVal) : Except PyErr String := do
  let monthly_change ← d_cond_percent change
  let annual_estimate ← py_mul_nat monthly_change 12
  py_if_chain
    [(py_gt annual_estimate 3, "인플레이션 압력 상승"),
     (py_gt annual_estimate 2, "목표 수준 근접"),
     (py_gt annual_estimate 1, "안정적인 물가 상승")]
    "디플레이션 우려"

/-- `_interpret_fed_rate` over dynamic values. -/
def d_interpret_fed_rate (value : PyVal) : Except PyErr String :=
  py_if_chain
    [(py_ge value 5, "긴축적 통화정책"),
     (py_ge value 3, "중립적 통화정책"),
     (py_ge value 1, "완화적 통화정책")]
    "초완화적 통화정책"

/-- `_interpret_gdp` over dynamic values. -/
def d_interpret_gdp (_value change : PyVal) : Except PyErr String := do
  let growth_estimate ←
    if py_truthy change then do
      let p ← py_method_get change "percent" (PyVal.num 0)
      py_mul_nat p 4
    else pure (PyVal.num 0)
  py_if_chain
    [(py_gt growth_estimate 3, "강한 경제성장"),
     (py_gt growth_estimate 2, "건전한 성장세"),
     (py_gt growth_estimate 0, "성장 둔화")]
    "경기 위축"

/-- `_interpret_yield_curve` over dynamic values. -/
def d_interpret_yield_curve (value : PyVal) : Except PyErr String :=
  py_if_chain
    [(py_lt value (-0.5), "심각한 역전 - 경기침체 임박"),
     (py_lt value 0, "수익률 역전 - 경기침체 경고"),
     (py_lt value 0.5, "평탄화 - 경기둔화 신호")]
    "정상 수익률 곡선"

/-- `_interpret_sahm_rule` over dynamic values. -/
def d_interpret_sahm_rule (value : PyVal) : Except PyErr String :=
  py_if_chain
    [(py_ge value 0.5, "경기침체 진입 (Sahm Rule 발동)"),
     (py_ge value 0.3, "경기침체 경고 수준"),
     (py_ge value 0.2, "고용시장 약화 신호")]
    "정상 수준"

/-- `_interpret_jobless_claims` over dynamic values. -/
def d_interpret_jobless_claims (value : PyVal) : Except PyErr String :=
  py_if_chain
    [(py_gt value 300000, "실업 급증 - 고용시장 악화"),
     (py_gt value 250000, "실업 증가 추세"),
     (py_gt value 200000, "정상 범위")]
    "낮은 실업 청구 - 강한 고용"

/-- `_interpret_retail_sales` over dynamic values. -/
def d_interpret_retail_sales (change : PyVal) : Except PyErr String := do
  let pct ← d_cond_percent change
  py_if_chain
    [(py_gt pct 1, "강한 소비 증가"),
     (py_gt pct 0, "소비 증가세"),
     (py_gt pct (-1), "소비 둔화")]
    "소비 위축"

/-- `_interpret_housing_starts` over dynamic values. -/
def d_interpret_housing_starts (value : PyVal) : Except PyErr String :=
  py_if_chain
    [(py_gt value 1500, "주택시장 호황"),
     (py_gt value 1300, "활발한 주택건설"),
     (py_gt value 1100, "정상적인 건설활동")]
    "주택시장 둔화"

/-- `_interpret_consumer_sentiment` over dynamic values. -/
def d_interpret_consumer_sentiment (value : PyVal) : Except PyErr String :=
  py_if_chain
    [(py_gt value 100, "낙관적 소비심리"),
     (py_gt value 90, "긍정적 소비심리"),
     (py_gt value 80, "중립적 소비심리")]
    "비관적 소비심리"

/-- `_interpret_ism_manufacturing` over dynamic values. -/
def d_interpret_ism_manufacturing (value : PyVal) : Except PyErr String :=
  py_if_chain
    [(py_ge value 60, "제조업 강한 확장"),
     (py_ge value 55, "제조업 확장"),
     (py_ge value 50, "제조업 완만한 확장"),
     (py_ge value 48, "제조업 위축 시작"),
     (py_ge value 45, "제조업 위축")]
    "제조업 심각한 위축"

/-- `_interpret_ism_services` over dynamic values. -/
def d_interpret_ism_services (value : PyVal) : Except PyErr String :=
  py_if_chain
    [(py_ge value 60, "서비스업 강한 확장"),
     (py_ge value 55, "서비스업 확장"),
     (py_ge value 50, "서비스업 완만한 확장"),
     (py_ge value 48, "서비스업 위축 시작"),
     (py_ge value 45, "서비스업 위축")]
    "서비스업 심각한 위축"

/-- `_interpret_ppi` over dynamic values. -/
def d_interpret_ppi (_value change : PyVal) : Except PyErr String := do
  let monthly_change ← d_cond_percent change
  let annual_estimate ← py_mul_nat monthly_change 12
  py_if_chain
    [(py_gt annual_estimate 4, "생산자물가 급등 - 비용 압력 심화"),
     (py_gt annual_estimate 3, "생산자물가 상승 압력"),
     (py_gt annual_estimate 2, "생산자물가 온건한 상승")]
    "생산자물가 안정적"

/-- `_interpret_import_prices` over dynamic values. -/
def d_interpret_import_prices (change : PyVal) : Except PyErr String := do
  let pct ← d_cond_percent change
  py_if_chain
    [(py_gt pct 2, "수입물가 급등 - 인플레이션 압력"),
     (py_gt pct 1, "수입물가 상승"),
     (py_gt pct (-1), "수입물가 안정")]
    "수입물가 하락 - 디플레이션 압력"

/-- `_interpret_export_prices` over dynamic values. -/
def d_interpret_export_prices (change : PyVal) : Except PyErr String := do
  let pct ← d_cond_percent change
  py_if_chain
    [(py_gt pct 2, "수출물가 강세 - 경쟁력 약화 우려"),
     (py_gt pct 0, "수출물가 상승"),
     (py_gt pct (-2), "수출물가 안정")]
    "수출물가 약세 - 경쟁력 개선"

/-- `_interpret_indicator` over dynamic values.  The Python dict literal
`interpretations = {...}` evaluates all fifteen helper calls eagerly, in
source order, before `.get(indicator_id, ...)` selects one — so an
exception in any helper escapes regardless of the indicator id. -/
def d_interpret_indicator (id : String) (value change : PyVal) :
    Except PyErr String := do
  let i_unrate ← d_interpret_unemployment value
  let i_cpiaucsl ← d_interpret_inflation value change
  let i_ppiaco ← d_interpret_ppi value change
  let i_dff ← d_interpret_fed_rate value
  let i_gdpc1 ← d_interpret_gdp value change
  let i_t10y2y ← d_interpret_yield_curve value
  let i_sahm ← d_interpret_sahm_rule value
  let i_icsa ← d_interpret_jobless_claims value
  let i_rsxfs ← d_interpret_retail_sales change
  let i_houst ← d_interpret_housing_starts value
  let i_umcsent ← d_interpret_consumer_sentiment value
  let i_manemp ← d_interpret_ism_manufacturing value
  let i_nmfbai ← d_interpret_ism_services value
  let i_ir ← d_interpret_import_prices change
  let i_iq ← d_interpret_export_prices change
  pure ((([("UNRATE", i_unrate), ("CPIAUCSL", i_cpiaucsl), ("PPIACO", i_ppiaco),
          ("DFF", i_dff), ("GDPC1", i_gdpc1), ("T10Y2Y", i_t10y2y),
          ("SAHMREALTIME", i_sahm), ("ICSA", i_icsa), ("RSXFS", i_rsxfs),
          ("HOUST", i_houst), ("UMCSENT", i_umcsent), ("MANEMP", i_manemp),
          ("NMFBAI", i_nmfbai), ("IR", i_ir), ("IQ", i_iq)] : List (String × String)
         ).lookup id).getD "데이터 분석 중")

/-- The per-indicator result of `_analyze_single_indicator`, dynamic model. -/
structure DIndicatorResult where
  current : PyVal
  change : PyVal
  status : Status
  trend : String
  interpretation : String

/-- `_analyze_single_indicator` over dynamic values. -/
def d_analyze_single_indicator (id : String) (data : PyDict) :
    Except PyErr DIndicatorResult := do
  let value := py_get data "value" (PyVal.num 0)
  let change := py_get data "change" (PyVal.dict [])
  let status ←
    match thresholds id with
    | none => pure Status.normal
    | some t =>
      if lower_is_worse id then do
        if (← py_le value t.critical) then pure Status.critical
        else if (← py_le value t.warning) then pure Status.warning
        else pure Status.normal
      else do
        if (← py_ge value t.critical) then pure Status.critical
        else if (← py_ge value t.warning) then pure Status.warning
        else pure Status.normal
  let trend ←
    if py_truthy change then do
      let pct ← py_method_get change "percent" (PyVal.num 0)
      let a ← py_abs pct
      if (← py_lt a 0.5) then pure "→ 보합"
      else if (← py_gt pct 0) then pure "↗️ 상승"
      else pure "↘️ 하락"
    else pure ""
  let interpretation ← d_interpret_indicator id value change
  pure { current := value, change := change, status := status,
         trend := trend, interpretation := interpretation }

/-- One collected alert, dynamic model (`indicator_data['name']` and
`indicator_data['value']` may hold any dynamic value). -/
structure DAlert where
  indicator : PyVal
  status : Status
  value : PyVal
  message : String

/-- Step 1 of `analyze_indicators` over dynamic values: each entry with a
`'value'` key is analysed in order, and the first exception escapes. -/
def d_collect_indicators : DSnapshot →
    Except PyErr (List (String × DIndicatorResult) × List DAlert)
  | [] => Except.ok ([], [])
  | (id, d) :: rest => do
    if (d.lookup "value").isSome then
      let r ← d_analyze_single_indicator id d
      let alert_part ←
        if r.status = Status.warning ∨ r.status = Status.critical then do
          let nm ← py_index d "name"
          let v ← py_index d "value"
          pure [({ indicator := nm, status := r.status, value := v,
                   message := r.interpretation } : DAlert)]
        else pure []
      let tail ← d_collect_indicators rest
      pure ((id, r) :: tail.1, alert_part ++ tail.2)
    else
      d_collect_indicators rest

/-- `_estimate_gdp_growth` over dynamic values: `gdp_data['change']` may be
`None` (the collector stores `'change': None` when no prior observation
exists), in which case `.get` raises `AttributeError`. -/
def d_estimate_gdp_growth (gdp_data : PyDict) : Except PyErr PyVal :=
  if gdp_data.isEmpty || (gdp_data.lookup "change").isNone then
    Except.ok (PyVal.num 0)
  else do
    let c ← py_index gdp_data "change"
    let p ← py_method_get c "percent" (PyVal.num 0)
    py_mul_nat p 4

/-- `_estimate_inflation` over dynamic values. -/
def d_estimate_inflation (cpi_data : PyDict) : Except PyErr PyVal :=
  if cpi_data.isEmpty || (cpi_data.lookup "change").isNone then
    Except.ok (PyVal.num 0)
  else do
    let c ← py_index cpi_data "change"
    let p ← py_method_get c "percent" (PyVal.num 0)
    py_mul_nat p 12

/-- `_determine_market_phase` over dynamic values (evaluation order of
lines 175-184 preserved: GDP, unemployment, inflation, retail sales, Sahm,
spread are all computed before the decision chain runs). -/
def d_determine_market_phase (raw_data : DSnapshot) : Except PyErr String := do
  let gdp_growth ← d_estimate_gdp_growth ((raw_data.lookup "GDPC1").getD [])
  let unemployment := py_get ((raw_data.lookup "UNRATE").getD []) "value" (PyVal.num 0)
  let _inflation ← d_estimate_inflation ((raw_data.lookup "CPIAUCSL").getD [])
  let _retail_sales ← py_method_get
    (py_get ((raw_data.lookup "RSXFS").getD []) "change" (PyVal.dict []))
    "percent" (PyVal.num 0)
  let sahm_value := py_get ((raw_data.lookup "SAHMREALTIME").getD []) "value" (PyVal.num 0)
  let yield_spread := py_get ((raw_data.lookup "T10Y2Y").getD []) "value" (PyVal.num 0)
  if (← py_ge sahm_value 0.5) then pure "🔴 경기침체 (Recession)"
  else if (← py_and (py_lt yield_spread 0) (py_gt unemployment 4)) then
    pure "🟠 경기둔화 (Slowdown)"
  else if (← py_and (py_gt gdp_growth 3) (py_lt unemployment 3.5)) then
    pure "🟡 과열 (Overheating)"
  else if (← py_and (py_gt gdp_growth 2) (py_lt unemployment 4)) then
    pure "🟢 확장 (Expansion)"
  else if (← py_and (py_gt gdp_growth 0) (py_le gdp_growth 2)) then
    pure "🔵 완만한 성장 (Moderate Growth)"
  else pure "⚪ 전환기 (Transition)"

/-- `_calculate_risk_level` over dynamic values. -/
def d_calculate_risk_level (raw_data : DSnapshot) : Except PyErr String := do
  let yield_spread := py_get ((raw_data.lookup "T10Y2Y").getD []) "value" (PyVal.num 1)
  let s1 : ℕ ←
    (do if (← py_lt yield_spread (-0.5)) then pure 3
        else if (← py_lt yield_spread 0) then pure 2
        else if (← py_lt yield_spread 0.5) then pure 1
        else pure 0)
  let sahm := py_get ((raw_data.lookup "SAHMREALTIME").getD []) "value" (PyVal.num 0)
  let s2 : ℕ ←
    (do if (← py_ge sahm 0.5) then pure 3
        else if (← py_ge sahm 0.3) then pure 2
        else if (← py_ge sahm 0.2) then pure 1
        else pure 0)
  let unemployment := py_get ((raw_data.lookup "UNRATE").getD []) "value" (PyVal.num 0)
  let s3 : ℕ ←
    (do if (← py_gt unemployment 5) then pure 2
        else if (← py_gt unemployment 4) then pure 1
        else pure 0)
  let inflation ← d_estimate_inflation ((raw_data.lookup "CPIAUCSL").getD [])
  let s4 : ℕ ←
    (do if (← py_or (py_gt inflation 4) (py_lt inflation 1)) then pure 2
        else if (← py_or (py_gt inflation 3) (py_lt inflation 1.5)) then pure 1
        else pure 0)
  let risk_pct : ℚ := ((s1 + s2 + s3 + s4 : ℕ) : ℚ) / 10 * 100
  pure (if risk_pct ≥ 70 then "🔴 매우 높음 (Very High)"
        else if risk_pct ≥ 50 then "🟠 높음 (High)"
        else if risk_pct ≥ 30 then "🟡 중간 (Medium)"
        else if risk_pct ≥ 15 then "🟢 낮음 (Low)"
        else "🔵 매우 낮음 (Very Low)")

/-- The per-alert advisory loop of `_generate_recommendations` over
dynamic alerts (`'Sahm' in alert['indicator']` raises `TypeError` when the
stored name is not a string or dict). -/
def d_alert_advisories : List DAlert → Except PyErr (List String)
  | [] => Except.ok []
  | a :: rest => do
    let cur ←
      if a.status = Status.critical then
        (do if (← py_in "Sahm" a.indicator) then pure ["경기침체 대비 포지션 조정"]
            else if (← py_in "수익률" a.indicator) then pure ["수익률 역전 - 방어적 포지션"]
            else if (← py_in "ISM" a.indicator) then pure ["제조업/서비스업 위축 - 경기순환주 회피"]
            else pure [])
      else pure ([] : List String)
    let tail ← d_alert_advisories rest
    pure (cur ++ tail)

/-- `any('ISM' in ind for ind in ...)`: lazy disjunction, stopping at the
first true test. -/
def d_any_ism : List PyVal → Except PyErr Bool
  | [] => Except.ok false
  | v :: rest => do
    if (← py_in "ISM" v) then pure true else d_any_ism rest

/-- `_generate_recommendations` over dynamic alerts. -/
def d_generate_recommendations (market_phase risk_level : String)
    (alerts : List DAlert) : Except PyErr (List String) := do
  let phase_recs :=
    if str_contains market_phase "침체" then
      ["현금 비중 확대 권고", "방어주 (유틸리티, 필수소비재) 관심", "장기 국채 비중 증가 고려"]
    else if str_contains market_phase "둔화" then
      ["포트폴리오 리밸런싱 시점", "배당주 비중 증가 검토", "성장주 비중 축소 고려"]
    else if str_contains market_phase "과열" then
      ["차익실현 시점 검토", "리스크 관리 강화 필요", "단기 유동성 확보"]
    else if str_contains market_phase "확장" then
      ["주식 비중 유지/확대", "경기민감주 관심", "성장주 투자 기회"]
    else []
  let risk_recs :=
    if str_contains risk_level "매우 높음" || str_contains risk_level "높음" then
      ["레버리지 투자 금지", "헤지 포지션 구축"]
    else []
  let alert_recs ← d_alert_advisories (alerts.take 2)
  let has_ism ← d_any_ism (alerts.map DAlert.indicator)
  let ism_recs := if has_ism then ["ISM 50 미만 - 경기둔화 대비"] else []
  pure ((phase_recs ++ risk_recs ++ alert_recs ++ ism_recs).take 5)

/-- The summary dict, dynamic model (the appended names are
`indicator_data['name']`, which may hold any dynamic value). -/
structure DSummary where
  total_indicators : ℕ
  updated_indicators : ℕ
  critical_indicators : List String
  improving_indicators : List PyVal
  deteriorating_indicators : List PyVal

/-- The improving/deteriorating loop of `_create_summary` over dynamic
values (`indicator_data['change']` may be `None`; a truthy non-dict change
raises `AttributeError` at `.get`; a missing `'name'` key raises
`KeyError` when a name is appended). -/
def d_movement_lists : DSnapshot → Except PyErr (List PyVal × List PyVal)
  | [] => Except.ok ([], [])
  | (id, d) :: rest => do
    let cur ←
      match d.lookup "change" with
      | some c =>
        if py_truthy c then do
          let pct_change ← py_method_get c "percent" (PyVal.num 0)
          if lower_is_better_ids.contains id then
            (do if (← py_lt pct_change (-1)) then do
                  let nm ← py_index d "name"
                  pure ([nm], ([] : List PyVal))
                else if (← py_gt pct_change 1) then do
                  let nm ← py_index d "name"
                  pure ([], [nm])
                else pure ([], []))
          else
            (do if (← py_gt pct_change 1) then do
                  let nm ← py_index d "name"
                  pure ([nm], ([] : List PyVal))
                else if (← py_lt pct_change (-1)) then do
                  let nm ← py_index d "name"
                  pure ([], [nm])
                else pure ([], []))
        else pure (([] : List PyVal), ([] : List PyVal))
      | none => pure (([] : List PyVal), ([] : List PyVal))
    let tail ← d_movement_lists rest
    pure (cur.1 ++ tail.1, cur.2 ++ tail.2)

/-- `_create_summary` over dynamic values. -/
def d_create_summary (data : DSnapshot) : Except PyErr DSummary := do
  let moved ← d_movement_lists data
  pure { total_indicators := data.length
         updated_indicators := data.countP (fun p => (p.2.lookup "value").isSome)
         critical_indicators := []
         improving_indicators := moved.1
         deteriorating_indicators := moved.2 }

/-- The full analysis result, dynamic model. -/
structure DAnalysisResult where
  timestamp : String
  indicators : List (String × DIndicatorResult)
  alerts : List DAlert
  market_phase : String
  risk_level : String
  recommendations : List String
  summary : DSummary

/-- `analyze_indicators` over dynamic values: the five steps run in source
order and the first Python exception escapes the whole call (the source
contains no exception handler). -/
def d_analyze_indicators (now : String) (data : DSnapshot) :
    Except PyErr DAnalysisResult := do
  let step1 ← d_collect_indicators data
  let phase ← d_determine_market_phase data
  let risk ← d_calculate_risk_level data
  let recommendations ← d_generate_recommendations phase risk step1.2
  let summary ← d_create_summary data
  pure { timestamp := now
         indicators := step1.1
         alerts := step1.2
         market_phase := phase
         risk_level := risk
         recommendations := recommendations
         summary := summary }

/-! ### Theorems -/

/-- C1: `_determine_market_phase` evaluates the six rules as an ordered
first-match decision list over the Sahm value, yield-curve spread,
annualised GDP growth (quarterly percent × 4) and unemployment rate, each
read with default 0 when missing; in particular Sahm=0.5 with spread=-0.6
gives Recession, and spread=-0.6 with unemployment=4.2 and Sahm below 0.5
gives Slowdown. -/
theorem market_phase_decision_list :
    (∀ raw_data : Snapshot,
      determine_market_phase raw_data =
        phase_rules_spec (get_value raw_data "SAHMREALTIME" 0)
          (get_value raw_data "T10Y2Y" 0)
          (estimate_gdp_growth (raw_data.lookup "GDPC1"))
          (get_value raw_data "UNRATE" 0))
    ∧ determine_market_phase
        [("SAHMREALTIME", { name := "Sahm Rule", value := some 0.5 }),
         ("T10Y2Y", { name := "10년-2년 스프레드", value := some (-0.6) })]
        = "🔴 경기침체 (Recession)"
    ∧ determine_market_phase
        [("T10Y2Y", { name := "10년-2년 스프레드", value := some (-0.6) }),
         ("UNRATE", { name := "실업률", value := some 4.2 })]
        = "🟠 경기둔화 (Slowdown)" :=
  ⟨fun _ => rfl, by with_unfolding_all rfl, by with_unfolding_all rfl⟩

/-- C2: `_calculate_risk_level` computes the additive point model (spread,
Sahm, unemployment, annualised CPI inflation, with defaults 1/0/0/0) whose
total never exceeds 10, maps score/10 × 100 through the ≥70/≥50/≥30/≥15
tier thresholds, and in particular spread=-0.6, Sahm=0.5,
unemployment=5.5, CPI monthly percent 0.4 gives score 10 and tier
VeryHigh. -/
theorem risk_level_point_model :
    (∀ raw_data : Snapshot,
      risk_score raw_data =
        risk_points_spec (get_value raw_data "T10Y2Y" 1)
          (get_value raw_data "SAHMREALTIME" 0)
          (get_value raw_data "UNRATE" 0)
          (estimate_inflation (raw_data.lookup "CPIAUCSL")))
    ∧ (∀ raw_data : Snapshot,
        calculate_risk_level raw_data = risk_tier_spec (risk_score raw_data))
    ∧ (∀ yield_spread sahm unemployment inflation : ℚ,
        risk_points_spec yield_spread sahm unemployment inflation ≤ 10)
    ∧ risk_score
        [("T10Y2Y", { name := "10년-2년 스프레드", value := some (-0.6) }),
         ("SAHMREALTIME", { name := "Sahm Rule", value := some 0.5 }),
         ("UNRATE", { name := "실업률", value := some 5.5 }),
         ("CPIAUCSL",
           { name := "CPI", value := some 320.321,
             change := some [("absolute", 1.27), ("percent", 0.4), ("prev_value", 319.051)] })]
        = 10
    ∧ calculate_risk_level
        [("T10Y2Y", { name := "10년-2년 스프레드", value := some (-0.6) }),
         ("SAHMREALTIME", { name := "Sahm Rule", value := some 0.5 }),
         ("UNRATE", { name := "실업률", value := some 5.5 }),
         ("CPIAUCSL",
           { name := "CPI", value := some 320.321,
             change := some [("absolute", 1.27), ("percent", 0.4), ("prev_value", 319.051)] })]
        = "🔴 매우 높음 (Very High)" := by
  refine ⟨fun _ => rfl, fun _ => rfl, ?_, by with_unfolding_all rfl,
    by with_unfolding_all rfl⟩
  intro yield_spread sahm unemployment inflation
  unfold risk_points_spec
  split_ifs <;> decide

/-- C3: the severity tier of `_analyze_single_indicator` is exactly the
spec's direction-aware threshold rule — ≤-comparisons for lower-is-worse
indicators, ≥-comparisons otherwise, Normal when the indicator has no
thresholds — applied to the entry's value read with default 0. -/
theorem classify_direction_rule :
    (∀ (id : String) (value : ℚ),
      threshold_status id value = classify_tier_spec id value)
    ∧ (∀ (id : String) (e : Entry),
        (analyze_single_indicator id e).status = threshold_status id (e.value.getD 0)) :=
  ⟨fun _ _ => rfl, fun _ _ => rfl⟩

/-- C8: `analyze_indicators` is deterministic in the snapshot — two calls
with the same snapshot and different clock readings agree on every field
except the timestamp, which is exactly the clock input. -/
theorem analyze_deterministic (now1 now2 : String) (data : Snapshot) :
    (analyze_indicators now1 data).indicators = (analyze_indicators now2 data).indicators
    ∧ (analyze_indicators now1 data).alerts = (analyze_indicators now2 data).alerts
    ∧ (analyze_indicators now1 data).market_phase = (analyze_indicators now2 data).market_phase
    ∧ (analyze_indicators now1 data).risk_level = (analyze_indicators now2 data).risk_level
    ∧ (analyze_indicators now1 data).recommendations
        = (analyze_indicators now2 data).recommendations
    ∧ (analyze_indicators now1 data).summary = (analyze_indicators now2 data).summary
    ∧ (analyze_indicators now1 data).timestamp = now1
    ∧ (analyze_indicators now2 data).timestamp = now2 :=
  ⟨rfl, rfl, rfl, rfl, rfl, rfl, rfl, rfl⟩

/-- C9: because the MANEMP/NMFBAI threshold rows have critical=45 below
warning=48 and are evaluated in the higher-is-worse branch, their tier is
Critical for every value ≥ 45 and Normal below, never Warning; in
particular the expansion-range reading 50 classifies as Critical. -/
theorem ism_thresholds_skip_warning :
    ∀ value : ℚ,
      threshold_status "MANEMP" value ≠ Status.warning
      ∧ threshold_status "NMFBAI" value ≠ Status.warning
      ∧ threshold_status "MANEMP" value
          = (if value ≥ 45 then Status.critical else Status.normal)
      ∧ threshold_status "NMFBAI" value
          = (if value ≥ 45 then Status.critical else Status.normal)
      ∧ threshold_status "MANEMP" 50 = Status.critical
      ∧ threshold_status "NMFBAI" 50 = Status.critical := by
  intro value
  have hm : ∀ v : ℚ, threshold_status "MANEMP" v =
      (if v ≥ 45 then Status.critical
       else if v ≥ 48 then Status.warning else Status.normal) :=
    fun v => by with_unfolding_all rfl
  have hn : ∀ v : ℚ, threshold_status "NMFBAI" v =
      (if v ≥ 45 then Status.critical
       else if v ≥ 48 then Status.warning else Status.normal) :=
    fun v => by with_unfolding_all rfl
  refine ⟨?_, ?_, ?_, ?_, by with_unfolding_all rfl, by with_unfolding_all rfl⟩
  · rw [hm]
    split_ifs with h1 h2
    · decide
    · exact absurd (le_trans (by norm_num) h2) h1
    · decide
  · rw [hn]
    split_ifs with h1 h2
    · decide
    · exact absurd (le_trans (by norm_num) h2) h1
    · decide
  · rw [hm]
    split_ifs with h1 h2
    · rfl
    · exact absurd (le_trans (by norm_num) h2) h1
    · rfl
  · rw [hn]
    split_ifs with h1 h2
    · rfl
    · exact absurd (le_trans (by norm_num) h2) h1
    · rfl

/-- C10: on the empty snapshot the risk score is exactly 2 (the missing
CPI observation makes the inflation estimate 0, in the below-1 band, for
+2, while every other term is 0), so the risk percentage is 20 and the
tier is Low, not VeryLow. -/
theorem empty_snapshot_risk_low :
    risk_score [] = 2
    ∧ ((risk_score ([] : Snapshot) : ℚ) / 10 * 100 = 20)
    ∧ estimate_inflation (([] : Snapshot).lookup "CPIAUCSL") = 0
    ∧ calculate_risk_level [] = "🟢 낮음 (Low)"
    ∧ calculate_risk_level [] ≠ "🔵 매우 낮음 (Very Low)"
    ∧ ∀ now : String, (analyze_indicators now []).risk_level = "🟢 낮음 (Low)" :=
  ⟨by with_unfolding_all rfl, by with_unfolding_all decide,
   by with_unfolding_all rfl, by with_unfolding_all rfl,
   by with_unfolding_all decide, fun _ => by with_unfolding_all rfl⟩

/-- C6: for every indicator with a threshold row, the severity tier is
monotone along Normal → Warning → Critical: raising the value of a
higher-is-worse indicator, or lowering the value of a lower-is-worse one,
never moves the tier backward. -/
theorem classify_monotone (id : String) (t : Thresholds)
    (ht : thresholds id = some t) (v1 v2 : ℚ) (h : v1 ≤ v2) :
    (lower_is_worse id = false →
      status_rank (threshold_status id v1) ≤ status_rank (threshold_status id v2))
    ∧ (lower_is_worse id = true →
      status_rank (threshold_status id v2) ≤ status_rank (threshold_status id v1)) := by
  have e1 : ∀ v : ℚ, threshold_status id v =
      if lower_is_worse id then
        (if v ≤ t.critical then Status.critical
         else if v ≤ t.warning then Status.warning else Status.normal)
      else
        (if v ≥ t.critical then Status.critical
         else if v ≥ t.warning then Status.warning else Status.normal) := by
    intro v
    unfold threshold_status
    rw [ht]
  constructor <;> intro hd <;> simp only [e1, hd, Bool.false_eq_true, if_false, if_true] <;>
    split_ifs <;> simp only [status_rank] <;> first | omega | (exfalso; linarith)

/-- Witness for the monotonicity theorem at the unemployment-rate row and
the pair 4 ≤ 5. -/
theorem classify_monotone_witness :
    thresholds "UNRATE" = some ⟨5.0, 4.5, 3.5⟩
    ∧ (4 : ℚ) ≤ 5
    ∧ ((lower_is_worse "UNRATE" = false →
        status_rank (threshold_status "UNRATE" 4) ≤ status_rank (threshold_status "UNRATE" 5))
      ∧ (lower_is_worse "UNRATE" = true →
        status_rank (threshold_status "UNRATE" 5) ≤ status_rank (threshold_status "UNRATE" 4))) :=
  ⟨by with_unfolding_all rfl, by norm_num,
   classify_monotone "UNRATE" ⟨5.0, 4.5, 3.5⟩ (by with_unfolding_all rfl) 4 5 (by norm_num)⟩

/-- C4 counterexample: with two critical alerts whose display names both
contain the Sahm marker, `_generate_recommendations` emits the same
advisory twice — the returned list is not duplicate-free. -/
theorem recommend_dedup_counterexample :
    generate_recommendations "🔴 경기침체 (Recession)" "🔵 매우 낮음 (Very Low)"
      [{ indicator := "Sahm Rule", status := Status.critical, value := 0.6,
         message := "경기침체 진입 (Sahm Rule 발동)" },
       { indicator := "Sahm Rule (실시간)", status := Status.critical, value := 0.7,
         message := "경기침체 진입 (Sahm Rule 발동)" }]
      = ["현금 비중 확대 권고", "방어주 (유틸리티, 필수소비재) 관심", "장기 국채 비중 증가 고려",
         "경기침체 대비 포지션 조정", "경기침체 대비 포지션 조정"]
    ∧ ¬ (generate_recommendations "🔴 경기침체 (Recession)" "🔵 매우 낮음 (Very Low)"
      [{ indicator := "Sahm Rule", status := Status.critical, value := 0.6,
         message := "경기침체 진입 (Sahm Rule 발동)" },
       { indicator := "Sahm Rule (실시간)", status := Status.critical, value := 0.7,
         message := "경기침체 진입 (Sahm Rule 발동)" }]).Nodup :=
  ⟨by with_unfolding_all rfl, by with_unfolding_all decide⟩

/-- C4 (amended): for every enumerated phase and risk tier and every alert
list, `_generate_recommendations` returns exactly the rule-built list —
phase triplet, High/VeryHigh cautionary pair, per-critical-alert
advisories over the first two alerts, ISM catch-all — truncated to the
first 5; and for arbitrary phase/risk strings its length never exceeds 5.
(No deduplication is performed: see the counterexample.) -/
theorem recommend_shape_and_cap :
    (∀ (p : MarketPhase) (r : RiskTier) (alerts : List Alert),
      generate_recommendations (market_phase_string p) (risk_tier_string r) alerts
        = (recommend_build_spec p r alerts).take 5)
    ∧ (∀ (market_phase risk_level : String) (alerts : List Alert),
        (generate_recommendations market_phase risk_level alerts).length ≤ 5) := by
  constructor
  · intro p r alerts
    cases p <;> cases r <;> rfl
  · intro market_phase risk_level alerts
    unfold generate_recommendations
    simp [List.length_take]

/-- C5 counterexample: T10Y2Y is the lower-is-worse indicator of the
classifier, yet a 2% fall of it lands in the deteriorating list, not the
improving list — `_create_summary` keys its direction handling on the
hard-coded id set, not on the classifier's direction. -/
theorem summary_direction_counterexample :
    lower_is_worse "T10Y2Y" = true
    ∧ change_percent (some [("absolute", -0.02), ("percent", -2), ("prev_value", 0.52)]) < -1
    ∧ (create_summary
        [("T10Y2Y",
          { name := "10년-2년 스프레드", value := some 0.5,
            change := some [("absolute", -0.02), ("percent", -2), ("prev_value", 0.52)] })]
       ).improving_indicators = []
    ∧ (create_summary
        [("T10Y2Y",
          { name := "10년-2년 스프레드", value := some 0.5,
            change := some [("absolute", -0.02), ("percent", -2), ("prev_value", 0.52)] })]
       ).deteriorating_indicators = ["10년-2년 스프레드"] :=
  ⟨by with_unfolding_all rfl, by with_unfolding_all decide,
   by with_unfolding_all rfl, by with_unfolding_all rfl⟩

/-- C5 (amended): the improving/deteriorating classification of
`_create_summary` is keyed on the hard-coded id set
`['UNRATE', 'CPIAUCSL', 'ICSA']` — for those ids a percent change < -1 is
improving and > 1 deteriorating, for every other id the signs invert;
entries without a truthy change dict join neither list, and `updated`
counts exactly the entries carrying a value.  The spec's worked example
(unemployment 3.0, CPI +0.1% monthly) produces no improving entry and no
alert. -/
theorem summary_hardcoded_direction :
    (∀ data : Snapshot,
      (create_summary data).improving_indicators = improving_spec data
      ∧ (create_summary data).deteriorating_indicators = deteriorating_spec data
      ∧ (create_summary data).updated_indicators = data.countP (fun p => p.2.value.isSome)
      ∧ (create_summary data).total_indicators = data.length)
    ∧ (create_summary
        [("UNRATE", { name := "실업률", value := some 3.0 }),
         ("CPIAUCSL",
           { name := "CPI", value := some 0.2,
             change := some [("absolute", 0.3), ("percent", 0.1), ("prev_value", 319)] })]
       ).improving_indicators = []
    ∧ (collect_indicators
        [("UNRATE", { name := "실업률", value := some 3.0 }),
         ("CPIAUCSL",
           { name := "CPI", value := some 0.2,
             change := some [("absolute", 0.3), ("percent", 0.1), ("prev_value", 319)] })]
       ).2 = [] := by
  have key : ∀ data : Snapshot,
      movement_lists data = (improving_spec data, deteriorating_spec data) := by
    intro data
    induction data with
    | nil => rfl
    | cons hd tl ih =>
      obtain ⟨id, e⟩ := hd
      simp only [movement_lists, improving_spec, deteriorating_spec, List.flatMap_cons, ih]
      by_cases hc : dict_truthy e.change = true
      · by_cases hm : id ∈ lower_is_better_ids
        · by_cases h1 : change_percent e.change < -1
          · have h2 : ¬ change_percent e.change > 1 := by linarith
            simp [hc, hm, h1, h2, improving_spec, deteriorating_spec]
          · by_cases h2 : change_percent e.change > 1
            · simp [hc, hm, h1, h2, improving_spec, deteriorating_spec]
            · simp [hc, hm, h1, h2, improving_spec, deteriorating_spec]
        · by_cases h1 : change_percent e.change > 1
          · have h2 : ¬ change_percent e.change < -1 := by linarith
            simp [hc, hm, h1, h2, improving_spec, deteriorating_spec]
          · by_cases h2 : change_percent e.change < -1
            · simp [hc, hm, h1, h2, improving_spec, deteriorating_spec]
            · simp [hc, hm, h1, h2, improving_spec, deteriorating_spec]
      · simp [hc, improving_spec, deteriorating_spec]
  refine ⟨?_, by with_unfolding_all rfl, by with_unfolding_all rfl⟩
  intro data
  refine ⟨?_, ?_, rfl, rfl⟩
  · show (movement_lists data).1 = improving_spec data
    rw [key]
  · show (movement_lists data).2 = deteriorating_spec data
    rw [key]

/-- C7 (code bug): `analyze_indicators` is not exception-safe.  On a
collector-shaped entry whose `change` field is `None` (exactly what
`get_latest_values` stores when only one observation exists),
`_estimate_gdp_growth` calls `.get` on `None` and the whole call raises
`AttributeError`; on an entry whose value is a string, the threshold
comparison raises `TypeError`.  The empty snapshot, by contrast, does
produce a complete result. -/
theorem analyze_raises_on_malformed_entries :
    ∀ now : String,
      d_analyze_indicators now
        [("GDPC1",
          [("name", PyVal.str "실질GDP"), ("value", PyVal.num 23512.717),
           ("date", PyVal.str "2025-04-01"), ("change", PyVal.pynone)])]
        = Except.error PyErr.attrErr
      ∧ d_analyze_indicators now
        [("CPIAUCSL", [("name", PyVal.str "CPI"), ("value", PyVal.str "N/A")])]
        = Except.error PyErr.typeErr
      ∧ d_analyze_indicators now [] =
          Except.ok
            { timestamp := now
              indicators := []
              alerts := []
              market_phase := "⚪ 전환기 (Transition)"
              risk_level := "🟢 낮음 (Low)"
              recommendations := []
              summary :=
                { total_indicators := 0
                  updated_indicators := 0
                  critical_indicators := []
                  improving_indicators := []
                  deteriorating_indicators := [] } } := by
  intro now
  refine ⟨?_, ?_, ?_⟩ <;> with_unfolding_all rfl

end EconBot
